import Mathlib

/-!
Verification development for the Kinopoisk rating scraper
(`src/kinopoisk_scraper.py`).

The scraper's pure extraction logic is embedded shallowly:

* HTML documents are abstracted to the data the scraper's selectors read
  (`Fragment` for one `div.item` record fragment, `Page1Doc` for the first
  listing page).  The BeautifulSoup selector calls themselves are external
  library behaviour; each `Fragment` field holds exactly what the
  corresponding selector expression in `parse_rating_item` would return.
* Python regular expressions used by the scraper are implemented as
  executable functions on `List Char` with the semantics of the `re`
  module on the patterns that occur in the source (`из\s*(\d+)`, `(\d+)`,
  `rating:\s*'(\d+)'`, `^(.*?)\s*\((\d{4})\)$`), including the fact that
  `.` does not match a newline and `\s` does.  `\d` and `\s` are
  approximated by their ASCII behaviour plus the non-breaking space for
  `\s` (the exotic Unicode whitespace/digit classes do not occur in any
  statement below).
* `datetime.strptime(_, "%d.%m.%Y, %H:%M")` is implemented following
  CPython's `_strptime` regexes (two-digit/one-digit alternatives with
  backtracking, full-string consumption) together with `datetime`'s
  range validation (leap years included).
* Network fetches are oracles: `Fetch1` for the page-count fetch and a
  `pages` function in `ScrapeEnv` for the per-page fetches, `none`
  standing for a raised network/HTTP error.
* A Python-level *unexpected* exception inside `parse_rating_item`'s
  `try` block is modelled by the `failAt` oracle of a fragment: the
  exception, if any, is raised on entry to the `failAt`-th extraction
  step (step 0 = sequence number, 1 = local title + year, 2 = original
  title, 3 = rating, 4 = duration, 5 = media type, 6 = rated-on date).
-/

/-- Whitespace as Python's `str.strip` / regex `\s` see it, restricted to
the characters that can occur in the statements below: space, tab, LF,
CR, vertical tab, form feed and the non-breaking space `\xa0`. -/
def isPySpace (c : Char) : Bool :=
  c == ' ' || c == '\t' || c == '\n' || c == '\r' ||
  c == Char.ofNat 11 || c == Char.ofNat 12 || c == Char.ofNat 160

/-- Python `str.strip()` on a character list: drop trailing whitespace,
then leading whitespace (the order is irrelevant; trailing-first makes
the lemmas below direct). -/
def pyStripL (l : List Char) : List Char :=
  ((l.reverse.dropWhile isPySpace).reverse).dropWhile isPySpace

/-- Python `str.strip()`. -/
def pyStrip (s : String) : String :=
  String.mk (pyStripL s.data)

/-- The value of a run of decimal digits, as Python `int` computes it. -/
def digitsToNat (ds : List Char) : Nat :=
  ds.foldl (fun a c => a * 10 + (c.toNat - 48)) 0

/-- Substring test, as Python's `in` on strings. -/
def hasSub (needle : List Char) : List Char → Bool
  | [] => needle.isEmpty
  | c :: t => needle.isPrefixOf (c :: t) || hasSub needle t

/-- One attempt of `re.search(r'из\s*(\d+)', _)` anchored at the head of
`l`: the literal `из`, then greedy whitespace, then at least one digit
(the maximal run, converted to its numeric value by `int`). -/
def matchIzAt (l : List Char) : Option Nat :=
  if ("из".data).isPrefixOf l then
    let r := (l.drop 2).dropWhile isPySpace
    let ds := r.takeWhile Char.isDigit
    if ds.isEmpty then none else some (digitsToNat ds)
  else none

/-- Leftmost-match scan for `re.search(r'из\s*(\d+)', _)` followed by
`int` on the captured group. -/
def searchIzAux : List Char → Option Nat
  | [] => none
  | c :: t =>
    match matchIzAt (c :: t) with
    | some n => some n
    | none => searchIzAux t

/-- The value `int(re.search(r'из\s*(\d+)', s).group(1))`, `none` when the
search fails. -/
def searchIz (s : String) : Option Nat :=
  searchIzAux s.data

/-- The group `re.search(r'(\d+)', s).group(1)`: the first maximal digit
run of `s`, `none` when `s` has no digit. -/
def searchNumStr (s : String) : Option String :=
  let l := s.data.dropWhile (fun c => !c.isDigit)
  if l.isEmpty then none else some (String.mk (l.takeWhile Char.isDigit))

/-- The value `int(re.search(r'(\d+)', s).group(1))`, `none` when the
search fails. -/
def searchNum (s : String) : Option Nat :=
  (searchNumStr s).map (fun ds => digitsToNat ds.data)

/-- The ASCII apostrophe, kept as a named constant. -/
def quoteChar : Char := Char.ofNat 39

/-- One attempt of `re.search(r"rating:\s*'(\d+)'", _)` anchored at the
head of `l`. -/
def matchRatingAt (l : List Char) : Option String :=
  if ("rating:".data).isPrefixOf l then
    match (l.drop 7).dropWhile isPySpace with
    | c :: r =>
      if c = quoteChar then
        let ds := r.takeWhile Char.isDigit
        if ds.isEmpty then none
        else
          match r.drop ds.length with
          | c2 :: _ => if c2 = quoteChar then some (String.mk ds) else none
          | [] => none
      else none
    | [] => none
  else none

/-- Leftmost-match scan for `re.search(r"rating:\s*'(\d+)'", _)`. -/
def searchRatingAux : List Char → Option String
  | [] => none
  | c :: t =>
    match matchRatingAt (c :: t) with
    | some v => some v
    | none => searchRatingAux t

/-- The captured digit group of `re.search(r"rating:\s*'(\d+)'", s)`. -/
def searchRating (s : String) : Option String :=
  searchRatingAux s.data

/-- The match `re.match(r"^(.*?)\s*\((\d{4})\)$", _)` on a character list: the
string must end in an open paren, four digits, and a close paren; before that tail, the lazy `(.*?)`
takes the least prefix, so the greedy `\s*` absorbs the maximal
whitespace run ending just before the `(`; and since `.` does not match
a newline, the remaining prefix (group 1) must contain no `\n`.
Returns `(group 1, group 2)` on success. -/
def matchNameYear (l : List Char) : Option (List Char × List Char) :=
  match l.reverse with
  | c0 :: d4 :: d3 :: d2 :: d1 :: c5 :: restRev =>
    if c0 = ')' && c5 = '(' && d1.isDigit && d2.isDigit && d3.isDigit && d4.isDigit then
      let g1 := (restRev.dropWhile isPySpace).reverse
      if '\n' ∈ g1 then none
      else some (g1, [d1, d2, d3, d4])
    else none
  | _ => none

/-- Parts of a parsed `datetime`, as far as the scraper uses them. -/
structure DateParts where
  day : Nat
  month : Nat
  year : Nat
  hour : Nat
  minute : Nat
deriving Repr, DecidableEq

/-- CPython `_strptime` character class for the second digit of `%H`'s
`2[0-3]` alternative and friends. -/
def dval (c : Char) : Nat := c.toNat - 48

/-- Two-digit `%d` alternatives `3[01]|[12]\d|0[1-9]`. -/
def dayTwoB (a b : Char) : Bool :=
  (a == '3' && (b == '0' || b == '1')) ||
  ((a == '1' || a == '2') && b.isDigit) ||
  (a == '0' && b.isDigit && b != '0')

/-- One-digit `%d` alternative `[1-9]`. -/
def dayOneB (a : Char) : Bool := a.isDigit && a != '0'

/-- Two-digit `%m` alternatives `1[0-2]|0[1-9]`. -/
def monthTwoB (a b : Char) : Bool :=
  (a == '1' && (b == '0' || b == '1' || b == '2')) ||
  (a == '0' && b.isDigit && b != '0')

/-- One-digit `%m` alternative `[1-9]`. -/
def monthOneB (a : Char) : Bool := a.isDigit && a != '0'

/-- Two-digit `%H` alternatives `2[0-3]|[0-1]\d`. -/
def hourTwoB (a b : Char) : Bool :=
  (a == '2' && (b == '0' || b == '1' || b == '2' || b == '3')) ||
  ((a == '0' || a == '1') && b.isDigit)

/-- Minute directive `%M` (`[0-5]\d|\d`), which must consume the whole remaining input
(`strptime` rejects unconverted trailing data). -/
def parseMin (l : List Char) : Option Nat :=
  match l with
  | [a, b] =>
    if (a == '0' || a == '1' || a == '2' || a == '3' || a == '4' || a == '5') && b.isDigit then
      some (dval a * 10 + dval b)
    else none
  | [a] => if a.isDigit then some (dval a) else none
  | _ => none

/-- Hour and minute `%H:%M` with the alternation order of `_strptime` (two-digit hour
first, then one-digit). -/
def parseHM (l : List Char) : Option (Nat × Nat) :=
  (match l with
   | a :: b :: c :: rest =>
     if hourTwoB a b && c == ':' then
       (parseMin rest).map (fun m => (dval a * 10 + dval b, m))
     else none
   | _ => none).orElse (fun _ =>
   match l with
   | a :: c :: rest =>
     if a.isDigit && c == ':' then (parseMin rest).map (fun m => (dval a, m))
     else none
   | _ => none)

/-- Year tail `%Y, %H:%M`: exactly four digits, a comma, one-or-more
whitespace (the literal space of the format is compiled to `\s+`), then
hour and minute. Returns `(year, hour, minute)`. -/
def parseYRest (l : List Char) : Option (Nat × Nat × Nat) :=
  match l with
  | a :: b :: c :: d :: ',' :: e :: rest =>
    if a.isDigit && b.isDigit && c.isDigit && d.isDigit && isPySpace e then
      (parseHM (rest.dropWhile isPySpace)).map
        (fun hm => (dval a * 1000 + dval b * 100 + dval c * 10 + dval d, hm.1, hm.2))
    else none
  | _ => none

/-- Month tail `%m.%Y, %H:%M`. Returns `(month, year, hour, minute)`. -/
def parseMRest (l : List Char) : Option (Nat × Nat × Nat × Nat) :=
  (match l with
   | a :: b :: '.' :: rest =>
     if monthTwoB a b then
       (parseYRest rest).map (fun (t : Nat × Nat × Nat) => (dval a * 10 + dval b, t.1, t.2.1, t.2.2))
     else none
   | _ => none).orElse (fun _ =>
   match l with
   | a :: '.' :: rest =>
     if monthOneB a then
       (parseYRest rest).map (fun (t : Nat × Nat × Nat) => (dval a, t.1, t.2.1, t.2.2))
     else none
   | _ => none)

/-- Whether `y` is a leap year, as `calendar`/`datetime` decide it. -/
def isLeap (y : Nat) : Bool :=
  y % 4 == 0 && (y % 100 != 0 || y % 400 == 0)

/-- Number of days of month `m` (1-12) in year `y`. -/
def daysInMonth (y m : Nat) : Nat :=
  if m == 2 then (if isLeap y then 29 else 28)
  else if m == 4 || m == 6 || m == 9 || m == 11 then 30
  else 31

/-- The call `datetime.strptime(s, "%d.%m.%Y, %H:%M")`: the full pattern match of
CPython's `_strptime` followed by the `datetime` constructor's range
checks (`MINYEAR = 1`, day bounded by the month's length). `none` models
the raised `ValueError`. -/
def pyStrptimeDMYHM (s : String) : Option DateParts :=
  let parsed : Option (Nat × Nat × Nat × Nat × Nat) :=
    (match s.data with
     | a :: b :: '.' :: rest =>
       if dayTwoB a b then
         (parseMRest rest).map (fun t => (dval a * 10 + dval b, t))
       else none
     | _ => none).orElse (fun _ =>
     match s.data with
     | a :: '.' :: rest =>
       if dayOneB a then (parseMRest rest).map (fun t => (dval a, t))
       else none
     | _ => none)
  match parsed with
  | none => none
  | some (d, m, y, h, mi) =>
    if 1 ≤ y ∧ d ≤ daysInMonth y m then some ⟨d, m, y, h, mi⟩ else none

/-- Zero-padded two-digit decimal, as `strftime`'s `%m`/`%d` print it. -/
def pad2 (n : Nat) : String :=
  if n < 10 then "0" ++ toString n else toString n

/-- The call `date_obj.strftime("%Y-%m-%d")`. -/
def fmtYMD (p : DateParts) : String :=
  toString p.year ++ "-" ++ pad2 p.month ++ "-" ++ pad2 p.day

example : pyStrip "  a b " = "a b" := by decide
example : searchIz "1–50 из 458" = some 458 := by decide
example : searchIz "1–0 из 0" = some 0 := by decide
example : searchNum "abc 17 z 9" = some 17 := by decide
example : matchNameYear ("Movie (1999)".data) =
    some ("Movie".data, ['1', '9', '9', '9']) := by decide
example : pyStrptimeDMYHM "15.03.2021, 14:30" = some ⟨15, 3, 2021, 14, 30⟩ := by decide
example : pyStrptimeDMYHM "29.02.2021, 14:30" = none := by decide
example : pyStrptimeDMYHM "29.02.2020, 14:30" = some ⟨29, 2, 2020, 14, 30⟩ := by decide
example : fmtYMD ⟨15, 3, 2021, 14, 30⟩ = "2021-03-15" := by decide

/-- One `div` found by `vote_widget.find_all("div")`: its `class`
attribute (absent when `has_attr("class")` is false) and its text. -/
structure VoteDiv where
  classes : Option (List String)
  text : String
deriving Repr, DecidableEq

/-- One `<script>` tag of the fragment; `string` is `script.string`,
which BeautifulSoup reports as `None` for non-leaf scripts. -/
structure ScriptTag where
  string : Option String
deriving Repr, DecidableEq

/-- One record fragment (a `div.item`), abstracted to what
`parse_rating_item`'s selector expressions read off it.  Each `Option`
is `none` when the corresponding selector finds nothing:
`num_div` = text of `div.num`; `nameRus_link` = text of
`div.nameRus a`; `nameEng_div` = text of `div.nameEng`;
`vote_widget` = the `div.vote_widget` with the divs `find_all`
enumerates inside it; `scripts` = `item.find_all("script")`;
`rateNow_vote` = the `vote` attribute of `div.rateNow[vote]`;
`duration_span` = text of the `span.text-grey` matching `\d+\s*мин\.?`
inside `div.rating`, when both exist; `type_attr` = the `type`
attribute of the `div[class*='MyKP_Folder_Select_'][type]`;
`date_div` = text of `div.date`.  `failAt` is the oracle for an
unexpected Python exception: `some k` means one is raised on entry to
extraction step `k` (see the header comment); `none` means the `try`
body runs to completion. -/
structure Fragment where
  num_div : Option String
  nameRus_link : Option String
  nameEng_div : Option String
  vote_widget : Option (List VoteDiv)
  scripts : List ScriptTag
  rateNow_vote : Option String
  duration_span : Option String
  type_attr : Option String
  date_div : Option String
  failAt : Option Nat
deriving Repr, DecidableEq

/-- The dictionary `parse_rating_item` builds, one field per key. -/
structure RatingItem where
  num : String
  nameRus : String
  nameEng : String
  rating : String
  year : String
  type : String
  duration : String
  date_rated : String
deriving Repr, DecidableEq

/-- The initial `result` dictionary: every field the empty string. -/
def initItem : RatingItem :=
  ⟨"", "", "", "", "", "", "", ""⟩

/-- The `result` dictionary as the ordered key/value list the source
writes down (and `csv.DictWriter` later serialises). -/
def recFields (r : RatingItem) : List (String × String) :=
  [("num", r.num), ("nameRus", r.nameRus), ("nameEng", r.nameEng),
   ("rating", r.rating), ("year", r.year), ("type", r.type),
   ("duration", r.duration), ("date_rated", r.date_rated)]

/-- Step 0: `num_div.text.strip()` when `div.num` is found. -/
def stepNum (f : Fragment) (r : RatingItem) : RatingItem :=
  match f.num_div with
  | some t => { r with num := pyStrip t }
  | none => r

/-- Step 1: Russian name and year off `div.nameRus a`'s text, split by
`re.match(r"^(.*?)\s*\((\d{4})\)$", _)` when that matches. -/
def stepNameRusYear (f : Fragment) (r : RatingItem) : RatingItem :=
  match f.nameRus_link with
  | none => r
  | some t =>
    let full := pyStrip t
    match matchNameYear full.data with
    | some g => { r with nameRus := String.mk (pyStripL g.1), year := String.mk g.2 }
    | none => { r with nameRus := full }

/-- The non-breaking space, as a one-character string. -/
def nbsp : String := String.mk [Char.ofNat 160]

/-- Step 2: English name off `div.nameEng`'s text, with the lone
non-breaking-space placeholder normalised to the empty string. -/
def stepNameEng (f : Fragment) (r : RatingItem) : RatingItem :=
  match f.nameEng_div with
  | none => r
  | some t =>
    let s := pyStrip t
    { r with nameEng := if s = nbsp then "" else s }

/-- The vote-display test of rating strategy 1: the div has a `class`
attribute whose space-joined class string contains both `myVote` and
`show_vote_`. -/
def myVoteDiv (d : VoteDiv) : Bool :=
  match d.classes with
  | some cs => hasSub "myVote".data (" ".intercalate cs).data &&
               hasSub "show_vote_".data (" ".intercalate cs).data
  | none => false

/-- Rating strategy 2 on one script tag: `script.string` is truthy and
contains `rating:`, and the regex `rating:\s*'(\d+)'` finds a match in
it (the captured digits). -/
def scriptRating (sc : ScriptTag) : Option String :=
  match sc.string with
  | none => none
  | some s => if s.isEmpty then none
              else if hasSub "rating:".data s.data then searchRating s
              else none

/-- Result of rating strategy 1 over the vote widget's divs: the
stripped text of the first vote-display div, `""` when there is none. -/
def strat1 (divs : List VoteDiv) : String :=
  match divs.find? myVoteDiv with
  | some d => pyStrip d.text
  | none => ""

/-- Result of rating strategy 2 over the fragment's script tags: the
first captured digit group, `""` when no script yields one. -/
def strat2 (scripts : List ScriptTag) : String :=
  match scripts.findSome? scriptRating with
  | some v => v
  | none => ""

/-- Result of rating strategy 3: the `vote` attribute of
`div.rateNow[vote]`, `""` when that element is absent. -/
def strat3 (f : Fragment) : String :=
  match f.rateNow_vote with
  | some v => v
  | none => ""

/-- Step 3: the rating.  Exactly the source's control flow: inside the
`if vote_widget:` block, first the vote-display div scan, then — only
when the rating is still empty — the script scan; afterwards, when the
rating is still empty, the `div.rateNow[vote]` attribute. -/
def stepRating (f : Fragment) (r : RatingItem) : RatingItem :=
  let r1 :=
    match f.vote_widget with
    | none => r
    | some divs =>
      let ra :=
        match divs.find? myVoteDiv with
        | some d => { r with rating := pyStrip d.text }
        | none => r
      if ra.rating = "" then
        match f.scripts.findSome? scriptRating with
        | some v => { ra with rating := v }
        | none => ra
      else ra
  if r1.rating = "" then
    match f.rateNow_vote with
    | some v => { r1 with rating := v }
    | none => r1
  else r1

/-- Step 4: duration, the digit group of `re.search(r'(\d+)', _)` on
the matched duration span's text. -/
def stepDuration (f : Fragment) (r : RatingItem) : RatingItem :=
  match f.duration_span with
  | none => r
  | some t =>
    match searchNumStr t with
    | some ds => { r with duration := ds }
    | none => r

/-- Step 5: media type, the `type` attribute when the selector matched,
the fixed fallback `"film"` otherwise. -/
def stepType (f : Fragment) (r : RatingItem) : RatingItem :=
  match f.type_attr with
  | some v => { r with type := v }
  | none => { r with type := "film" }

/-- Step 6: rated-on date off `div.date`'s stripped text: reformatted
to `%Y-%m-%d` when `strptime` succeeds, kept verbatim when it raises
`ValueError`. -/
def stepDate (f : Fragment) (r : RatingItem) : RatingItem :=
  match f.date_div with
  | none => r
  | some t =>
    let s := pyStrip t
    match pyStrptimeDMYHM s with
    | some p => { r with date_rated := fmtYMD p }
    | none => { r with date_rated := s }

/-- The seven extraction steps of `parse_rating_item`'s `try` body, in
source order. -/
def parseSteps : List (Fragment → RatingItem → RatingItem) :=
  [stepNum, stepNameRusYear, stepNameEng, stepRating, stepDuration, stepType, stepDate]

/-- Fold a list of extraction steps over a record. -/
def applySteps (l : List (Fragment → RatingItem → RatingItem)) (f : Fragment)
    (r : RatingItem) : RatingItem :=
  l.foldl (fun r s => s f r) r

/-- Run the `try` body: apply the steps in order; when the exception
oracle fires on entry to step `k`, return `Except.error` carrying the
record as built so far (the `result` dict the `except` handler sees). -/
def runBody (f : Fragment) : List (Fragment → RatingItem → RatingItem) → Nat →
    RatingItem → Except RatingItem RatingItem
  | [], _, r => .ok r
  | s :: rest, k, r =>
    if f.failAt = some k then .error r else runBody f rest (k + 1) (s f r)

/-- Source `KinopoiskScraper.parse_rating_item`: the `try` body over the seven
steps; any exception is caught and the partially-built record returned. -/
def parse_rating_item (f : Fragment) : RatingItem :=
  match runBody f parseSteps 0 initItem with
  | .ok r => r
  | .error r => r

/-- The retention test of the extraction loops:
`if rating_data["nameRus"] or rating_data["nameEng"]` — Python string
truthiness, i.e. at least one name field non-empty. -/
def hasName (r : RatingItem) : Bool :=
  !r.nameRus.isEmpty || !r.nameEng.isEmpty

/-- One iteration of the accumulation loops: parse the fragment and
append the record when it passes the name filter. -/
def addIfNamed (acc : List RatingItem) (it : Fragment) : List RatingItem :=
  let r := parse_rating_item it
  if hasName r then acc ++ [r] else acc

/-- Source `KinopoiskScraper.extract_from_html`, with the document already
abstracted to its list of `div.item` fragments. -/
def extract_from_html (frags : List Fragment) : List RatingItem :=
  frags.foldl addIfNamed []

/-- The first listing page's document, abstracted to the two count
indicators `get_total_pages` looks for: the text of `div.pagesFromTo`
and the text of `span.profile_V2_votes_total`, each `none` when the
element is absent. -/
structure Page1Doc where
  pagesFromTo : Option String
  votesTotal : Option String
deriving Repr, DecidableEq

/-- Outcome of the page-count fetch: the parsed document, or a raised
network/HTTP error. -/
inductive Fetch1 where
  | ok (doc : Page1Doc)
  | err
deriving Repr, DecidableEq

/-- Source `KinopoiskScraper.get_total_pages`: on a fetch error return 0; else
try `re.search(r'из\s*(\d+)', _)` on `div.pagesFromTo`, then
`re.search(r'(\d+)', _)` on `span.profile_V2_votes_total`, computing
`(total + 49) // 50` from the first hit; with no hit return 1. -/
def get_total_pages : Fetch1 → Nat
  | .err => 0
  | .ok d =>
    match d.pagesFromTo.bind searchIz with
    | some n => (n + 49) / 50
    | none =>
      match d.votesTotal.bind searchNum with
      | some n => (n + 49) / 50
      | none => 1

/-- The run's environment: the page-count fetch's outcome, the outcome
of each per-page fetch (`none` = raised network/HTTP error, `some` =
the page's `div.item` fragments), and whether the CSV write succeeds. -/
structure ScrapeEnv where
  page1 : Fetch1
  pages : Nat → Option (List Fragment)
  sinkOk : Bool

/-- Source `KinopoiskScraper.fetch_ratings_page`: the page's fragments, or the
empty list when the fetch raises. -/
def fetch_ratings_page (env : ScrapeEnv) (page_num : Nat) : List Fragment :=
  match env.pages page_num with
  | some items => items
  | none => []

/-- The records page `p` contributes to the export accumulator. -/
def pageRecs (env : ScrapeEnv) (p : Nat) : List RatingItem :=
  ((fetch_ratings_page env p).map parse_rating_item).filter hasName

/-- One iteration of `export_to_csv`'s page loop: fetch the page, skip
it when the item list is empty (`continue`), otherwise run the inner
accumulation loop; the second component records the fetched page
numbers in order. -/
def pageStep (env : ScrapeEnv) (st : List RatingItem × List Nat) (p : Nat) :
    List RatingItem × List Nat :=
  let items := fetch_ratings_page env p
  let acc := if items.isEmpty then st.1 else items.foldl addIfNamed st.1
  (acc, st.2 ++ [p])

/-- The page loop of `export_to_csv` over pages `1..n`. -/
def exportRun (env : ScrapeEnv) (n : Nat) : List RatingItem × List Nat :=
  (List.range' 1 n).foldl (pageStep env) ([], [])

/-- Observable outcome of `export_to_csv`: its boolean result, the page
numbers it fetched, and the record list written to the CSV (`none` when
no output was written). -/
structure ExportOutcome where
  ok : Bool
  fetchedPages : List Nat
  written : Option (List RatingItem)
deriving Repr

/-- Source `KinopoiskScraper.export_to_csv`: abort with failure when the page
count is 0 (before any page fetch); otherwise run the page loop and
hand the accumulator to the CSV writer, whose success is the run's
result.  The inter-page `time.sleep(1.5)` has no observable effect in
this model and is omitted. -/
def export_to_csv (env : ScrapeEnv) : ExportOutcome :=
  let total_pages := get_total_pages env.page1
  if total_pages = 0 then ⟨false, [], none⟩
  else
    let run := exportRun env total_pages
    if env.sinkOk then ⟨true, run.2, some run.1⟩ else ⟨false, run.2, none⟩

example : get_total_pages (.ok ⟨some "1–50 из 458", none⟩) = 10 := by decide
example : get_total_pages (.ok ⟨some "1–0 из 0", none⟩) = 0 := by decide
example : get_total_pages (.ok ⟨none, some "450"⟩) = 9 := by decide
example : get_total_pages (.ok ⟨none, none⟩) = 1 := by decide
example : get_total_pages .err = 0 := by decide

lemma dropWhile_append_all {p : Char → Bool} (xs ys : List Char)
    (h : ∀ x ∈ xs, p x = true) : (xs ++ ys).dropWhile p = ys.dropWhile p := by
  induction xs with
  | nil => simp
  | cons a t ih =>
    have ha : p a = true := h a (by simp)
    simp only [List.cons_append, List.dropWhile_cons, ha, if_true]
    exact ih (fun x hx => h x (by simp [hx]))

lemma dropWhile_idem {p : Char → Bool} (l : List Char) :
    (l.dropWhile p).dropWhile p = l.dropWhile p := by
  induction l with
  | nil => rfl
  | cons a t ih =>
    by_cases ha : p a = true
    · simp only [List.dropWhile_cons, ha, if_true]; exact ih
    · simp [List.dropWhile_cons, ha]

lemma mem_of_mem_dropWhile {p : Char → Bool} {c : Char} {l : List Char}
    (h : c ∈ l.dropWhile p) : c ∈ l :=
  (List.dropWhile_sublist p).mem h

lemma pyStripL_dropTrail (l : List Char) :
    pyStripL ((l.reverse.dropWhile isPySpace).reverse) = pyStripL l := by
  unfold pyStripL
  rw [List.reverse_reverse, dropWhile_idem]

lemma foldl_addIfNamed (l : List Fragment) :
    ∀ acc, l.foldl addIfNamed acc = acc ++ (l.map parse_rating_item).filter hasName := by
  induction l with
  | nil => intro acc; simp
  | cons x t ih =>
    intro acc
    simp only [List.foldl_cons, List.map_cons, List.filter_cons]
    rw [ih]
    by_cases h : hasName (parse_rating_item x) = true
    · simp [addIfNamed, h]
    · simp [addIfNamed, h]

lemma extract_eq_filter (frags : List Fragment) :
    extract_from_html frags = (frags.map parse_rating_item).filter hasName := by
  unfold extract_from_html
  rw [foldl_addIfNamed]
  simp

/-- Per-page record contribution, concatenated over a list of pages. -/
def concatRecs (env : ScrapeEnv) : List Nat → List RatingItem
  | [] => []
  | p :: t => pageRecs env p ++ concatRecs env t

lemma pageStep_eq (env : ScrapeEnv) (st : List RatingItem × List Nat) (p : Nat) :
    pageStep env st p = (st.1 ++ pageRecs env p, st.2 ++ [p]) := by
  unfold pageStep pageRecs
  by_cases h : (fetch_ratings_page env p).isEmpty = true
  · rw [List.isEmpty_iff] at h
    simp [h]
  · simp only [h, if_false, Bool.false_eq_true]
    rw [foldl_addIfNamed]

lemma foldl_pageStep (env : ScrapeEnv) (ps : List Nat) :
    ∀ st, ps.foldl (pageStep env) st = (st.1 ++ concatRecs env ps, st.2 ++ ps) := by
  induction ps with
  | nil => intro st; simp [concatRecs]
  | cons p t ih =>
    intro st
    simp only [List.foldl_cons]
    rw [pageStep_eq, ih]
    simp [concatRecs]

lemma exportRun_eq (env : ScrapeEnv) (n : Nat) :
    exportRun env n = (concatRecs env (List.range' 1 n), List.range' 1 n) := by
  unfold exportRun
  rw [foldl_pageStep]
  simp

lemma runBody_none {f : Fragment} (h : f.failAt = none) :
    ∀ (l : List (Fragment → RatingItem → RatingItem)) (i : Nat) (r : RatingItem),
      runBody f l i r = .ok (applySteps l f r) := by
  intro l
  induction l with
  | nil => intro i r; simp [runBody, applySteps]
  | cons s t ih =>
    intro i r
    simp only [runBody, h]
    simp only [applySteps, List.foldl_cons]
    exact ih (i + 1) (s f r)

lemma runBody_some {f : Fragment} {m : Nat} (h : f.failAt = some m) :
    ∀ (l : List (Fragment → RatingItem → RatingItem)) (i : Nat) (r : RatingItem),
      i ≤ m →
      runBody f l i r =
        if m < i + l.length then .error (applySteps (l.take (m - i)) f r)
        else .ok (applySteps l f r) := by
  intro l
  induction l with
  | nil =>
    intro i r hi
    simp only [runBody, List.length_nil, Nat.add_zero]
    rw [if_neg (by omega)]
    simp [applySteps]
  | cons s t ih =>
    intro i r hi
    by_cases he : m = i
    · subst he
      have hc : m < m + (s :: t).length := by rw [List.length_cons]; omega
      simp only [runBody, h, Nat.sub_self, List.take_zero, if_true]
      rw [if_pos hc]
      simp [applySteps]
    · have hne : ¬ f.failAt = some i := by
        rw [h]; intro hc; exact he (Option.some.inj hc)
      simp only [runBody, hne, if_neg, if_false]
      rw [ih (i + 1) (s f r) (by omega)]
      have hlen : i + 1 + t.length = i + (s :: t).length := by
        rw [List.length_cons]; omega
      rw [hlen]
      by_cases hlt : m < i + (s :: t).length
      · rw [if_pos hlt, if_pos hlt]
        obtain ⟨j, hj⟩ : ∃ j, m - i = j + 1 := ⟨m - i - 1, by omega⟩
        have hj' : m - (i + 1) = j := by omega
        rw [hj, hj', List.take_succ_cons]
        simp [applySteps]
      · rw [if_neg hlt, if_neg hlt]
        simp [applySteps]

lemma parse_eq_fold {f : Fragment} (h : f.failAt = none) :
    parse_rating_item f = applySteps parseSteps f initItem := by
  unfold parse_rating_item
  rw [runBody_none h]

lemma parse_eq_take {f : Fragment} {k : Nat} (h : f.failAt = some k) :
    parse_rating_item f = applySteps (parseSteps.take k) f initItem := by
  unfold parse_rating_item
  rw [runBody_some h parseSteps 0 initItem (Nat.zero_le k)]
  by_cases hlt : k < 0 + parseSteps.length
  · rw [if_pos hlt]
    simp
  · rw [if_neg hlt]
    have h7 : parseSteps.length ≤ k := by
      simp only [Nat.zero_add] at hlt; omega
    rw [List.take_of_length_le h7]

lemma stepNum_shape (f : Fragment) (r : RatingItem) :
    ∃ v, stepNum f r = { r with num := v } := by
  unfold stepNum
  cases f.num_div
  · exact ⟨_, rfl⟩
  · exact ⟨_, rfl⟩

lemma stepNameRusYear_shape (f : Fragment) (r : RatingItem) :
    ∃ a b, stepNameRusYear f r = { r with nameRus := a, year := b } := by
  unfold stepNameRusYear
  cases f.nameRus_link
  · exact ⟨_, _, rfl⟩
  · simp only []
    repeat' split
    · exact ⟨_, _, rfl⟩
    · exact ⟨_, _, rfl⟩

lemma stepNameEng_shape (f : Fragment) (r : RatingItem) :
    ∃ v, stepNameEng f r = { r with nameEng := v } := by
  unfold stepNameEng
  cases f.nameEng_div
  · exact ⟨_, rfl⟩
  · exact ⟨_, rfl⟩

lemma stepRating_shape (f : Fragment) (r : RatingItem) :
    ∃ v, stepRating f r = { r with rating := v } := by
  unfold stepRating
  simp only []
  repeat' split
  all_goals exact ⟨_, rfl⟩

lemma stepDuration_shape (f : Fragment) (r : RatingItem) :
    ∃ v, stepDuration f r = { r with duration := v } := by
  unfold stepDuration
  repeat' split
  all_goals exact ⟨_, rfl⟩

lemma stepType_shape (f : Fragment) (r : RatingItem) :
    ∃ v, stepType f r = { r with type := v } := by
  unfold stepType
  cases f.type_attr
  · exact ⟨_, rfl⟩
  · exact ⟨_, rfl⟩

lemma stepDate_shape (f : Fragment) (r : RatingItem) :
    ∃ v, stepDate f r = { r with date_rated := v } := by
  unfold stepDate
  cases f.date_div
  · exact ⟨_, rfl⟩
  · dsimp only
    repeat' split
    all_goals exact ⟨_, rfl⟩

@[simp] lemma stepNum_nameRus (f : Fragment) (r : RatingItem) :
    (stepNum f r).nameRus = r.nameRus := by
  obtain ⟨v, hv⟩ := stepNum_shape f r
  rw [hv]

@[simp] lemma stepNum_nameEng (f : Fragment) (r : RatingItem) :
    (stepNum f r).nameEng = r.nameEng := by
  obtain ⟨v, hv⟩ := stepNum_shape f r
  rw [hv]

@[simp] lemma stepNum_rating (f : Fragment) (r : RatingItem) :
    (stepNum f r).rating = r.rating := by
  obtain ⟨v, hv⟩ := stepNum_shape f r
  rw [hv]

@[simp] lemma stepNum_year (f : Fragment) (r : RatingItem) :
    (stepNum f r).year = r.year := by
  obtain ⟨v, hv⟩ := stepNum_shape f r
  rw [hv]

@[simp] lemma stepNum_type (f : Fragment) (r : RatingItem) :
    (stepNum f r).type = r.type := by
  obtain ⟨v, hv⟩ := stepNum_shape f r
  rw [hv]

@[simp] lemma stepNum_duration (f : Fragment) (r : RatingItem) :
    (stepNum f r).duration = r.duration := by
  obtain ⟨v, hv⟩ := stepNum_shape f r
  rw [hv]

@[simp] lemma stepNum_date_rated (f : Fragment) (r : RatingItem) :
    (stepNum f r).date_rated = r.date_rated := by
  obtain ⟨v, hv⟩ := stepNum_shape f r
  rw [hv]

@[simp] lemma stepNameRusYear_num (f : Fragment) (r : RatingItem) :
    (stepNameRusYear f r).num = r.num := by
  obtain ⟨a, b, hv⟩ := stepNameRusYear_shape f r
  rw [hv]

@[simp] lemma stepNameRusYear_nameEng (f : Fragment) (r : RatingItem) :
    (stepNameRusYear f r).nameEng = r.nameEng := by
  obtain ⟨a, b, hv⟩ := stepNameRusYear_shape f r
  rw [hv]

@[simp] lemma stepNameRusYear_rating (f : Fragment) (r : RatingItem) :
    (stepNameRusYear f r).rating = r.rating := by
  obtain ⟨a, b, hv⟩ := stepNameRusYear_shape f r
  rw [hv]

@[simp] lemma stepNameRusYear_type (f : Fragment) (r : RatingItem) :
    (stepNameRusYear f r).type = r.type := by
  obtain ⟨a, b, hv⟩ := stepNameRusYear_shape f r
  rw [hv]

@[simp] lemma stepNameRusYear_duration (f : Fragment) (r : RatingItem) :
    (stepNameRusYear f r).duration = r.duration := by
  obtain ⟨a, b, hv⟩ := stepNameRusYear_shape f r
  rw [hv]

@[simp] lemma stepNameRusYear_date_rated (f : Fragment) (r : RatingItem) :
    (stepNameRusYear f r).date_rated = r.date_rated := by
  obtain ⟨a, b, hv⟩ := stepNameRusYear_shape f r
  rw [hv]

@[simp] lemma stepNameEng_num (f : Fragment) (r : RatingItem) :
    (stepNameEng f r).num = r.num := by
  obtain ⟨v, hv⟩ := stepNameEng_shape f r
  rw [hv]

@[simp] lemma stepNameEng_nameRus (f : Fragment) (r : RatingItem) :
    (stepNameEng f r).nameRus = r.nameRus := by
  obtain ⟨v, hv⟩ := stepNameEng_shape f r
  rw [hv]

@[simp] lemma stepNameEng_rating (f : Fragment) (r : RatingItem) :
    (stepNameEng f r).rating = r.rating := by
  obtain ⟨v, hv⟩ := stepNameEng_shape f r
  rw [hv]

@[simp] lemma stepNameEng_year (f : Fragment) (r : RatingItem) :
    (stepNameEng f r).year = r.year := by
  obtain ⟨v, hv⟩ := stepNameEng_shape f r
  rw [hv]

@[simp] lemma stepNameEng_type (f : Fragment) (r : RatingItem) :
    (stepNameEng f r).type = r.type := by
  obtain ⟨v, hv⟩ := stepNameEng_shape f r
  rw [hv]

@[simp] lemma stepNameEng_duration (f : Fragment) (r : RatingItem) :
    (stepNameEng f r).duration = r.duration := by
  obtain ⟨v, hv⟩ := stepNameEng_shape f r
  rw [hv]

@[simp] lemma stepNameEng_date_rated (f : Fragment) (r : RatingItem) :
    (stepNameEng f r).date_rated = r.date_rated := by
  obtain ⟨v, hv⟩ := stepNameEng_shape f r
  rw [hv]

@[simp] lemma stepRating_num (f : Fragment) (r : RatingItem) :
    (stepRating f r).num = r.num := by
  obtain ⟨v, hv⟩ := stepRating_shape f r
  rw [hv]

@[simp] lemma stepRating_nameRus (f : Fragment) (r : RatingItem) :
    (stepRating f r).nameRus = r.nameRus := by
  obtain ⟨v, hv⟩ := stepRating_shape f r
  rw [hv]

@[simp] lemma stepRating_nameEng (f : Fragment) (r : RatingItem) :
    (stepRating f r).nameEng = r.nameEng := by
  obtain ⟨v, hv⟩ := stepRating_shape f r
  rw [hv]

@[simp] lemma stepRating_year (f : Fragment) (r : RatingItem) :
    (stepRating f r).year = r.year := by
  obtain ⟨v, hv⟩ := stepRating_shape f r
  rw [hv]

@[simp] lemma stepRating_type (f : Fragment) (r : RatingItem) :
    (stepRating f r).type = r.type := by
  obtain ⟨v, hv⟩ := stepRating_shape f r
  rw [hv]

@[simp] lemma stepRating_duration (f : Fragment) (r : RatingItem) :
    (stepRating f r).duration = r.duration := by
  obtain ⟨v, hv⟩ := stepRating_shape f r
  rw [hv]

@[simp] lemma stepRating_date_rated (f : Fragment) (r : RatingItem) :
    (stepRating f r).date_rated = r.date_rated := by
  obtain ⟨v, hv⟩ := stepRating_shape f r
  rw [hv]

@[simp] lemma stepDuration_num (f : Fragment) (r : RatingItem) :
    (stepDuration f r).num = r.num := by
  obtain ⟨v, hv⟩ := stepDuration_shape f r
  rw [hv]

@[simp] lemma stepDuration_nameRus (f : Fragment) (r : RatingItem) :
    (stepDuration f r).nameRus = r.nameRus := by
  obtain ⟨v, hv⟩ := stepDuration_shape f r
  rw [hv]

@[simp] lemma stepDuration_nameEng (f : Fragment) (r : RatingItem) :
    (stepDuration f r).nameEng = r.nameEng := by
  obtain ⟨v, hv⟩ := stepDuration_shape f r
  rw [hv]

@[simp] lemma stepDuration_rating (f : Fragment) (r : RatingItem) :
    (stepDuration f r).rating = r.rating := by
  obtain ⟨v, hv⟩ := stepDuration_shape f r
  rw [hv]

@[simp] lemma stepDuration_year (f : Fragment) (r : RatingItem) :
    (stepDuration f r).year = r.year := by
  obtain ⟨v, hv⟩ := stepDuration_shape f r
  rw [hv]

@[simp] lemma stepDuration_type (f : Fragment) (r : RatingItem) :
    (stepDuration f r).type = r.type := by
  obtain ⟨v, hv⟩ := stepDuration_shape f r
  rw [hv]

@[simp] lemma stepDuration_date_rated (f : Fragment) (r : RatingItem) :
    (stepDuration f r).date_rated = r.date_rated := by
  obtain ⟨v, hv⟩ := stepDuration_shape f r
  rw [hv]

@[simp] lemma stepType_num (f : Fragment) (r : RatingItem) :
    (stepType f r).num = r.num := by
  obtain ⟨v, hv⟩ := stepType_shape f r
  rw [hv]

@[simp] lemma stepType_nameRus (f : Fragment) (r : RatingItem) :
    (stepType f r).nameRus = r.nameRus := by
  obtain ⟨v, hv⟩ := stepType_shape f r
  rw [hv]

@[simp] lemma stepType_nameEng (f : Fragment) (r : RatingItem) :
    (stepType f r).nameEng = r.nameEng := by
  obtain ⟨v, hv⟩ := stepType_shape f r
  rw [hv]

@[simp] lemma stepType_rating (f : Fragment) (r : RatingItem) :
    (stepType f r).rating = r.rating := by
  obtain ⟨v, hv⟩ := stepType_shape f r
  rw [hv]

@[simp] lemma stepType_year (f : Fragment) (r : RatingItem) :
    (stepType f r).year = r.year := by
  obtain ⟨v, hv⟩ := stepType_shape f r
  rw [hv]

@[simp] lemma stepType_duration (f : Fragment) (r : RatingItem) :
    (stepType f r).duration = r.duration := by
  obtain ⟨v, hv⟩ := stepType_shape f r
  rw [hv]

@[simp] lemma stepType_date_rated (f : Fragment) (r : RatingItem) :
    (stepType f r).date_rated = r.date_rated := by
  obtain ⟨v, hv⟩ := stepType_shape f r
  rw [hv]

@[simp] lemma stepDate_num (f : Fragment) (r : RatingItem) :
    (stepDate f r).num = r.num := by
  obtain ⟨v, hv⟩ := stepDate_shape f r
  rw [hv]

@[simp] lemma stepDate_nameRus (f : Fragment) (r : RatingItem) :
    (stepDate f r).nameRus = r.nameRus := by
  obtain ⟨v, hv⟩ := stepDate_shape f r
  rw [hv]

@[simp] lemma stepDate_nameEng (f : Fragment) (r : RatingItem) :
    (stepDate f r).nameEng = r.nameEng := by
  obtain ⟨v, hv⟩ := stepDate_shape f r
  rw [hv]

@[simp] lemma stepDate_rating (f : Fragment) (r : RatingItem) :
    (stepDate f r).rating = r.rating := by
  obtain ⟨v, hv⟩ := stepDate_shape f r
  rw [hv]

@[simp] lemma stepDate_year (f : Fragment) (r : RatingItem) :
    (stepDate f r).year = r.year := by
  obtain ⟨v, hv⟩ := stepDate_shape f r
  rw [hv]

@[simp] lemma stepDate_type (f : Fragment) (r : RatingItem) :
    (stepDate f r).type = r.type := by
  obtain ⟨v, hv⟩ := stepDate_shape f r
  rw [hv]

@[simp] lemma stepDate_duration (f : Fragment) (r : RatingItem) :
    (stepDate f r).duration = r.duration := by
  obtain ⟨v, hv⟩ := stepDate_shape f r
  rw [hv]


lemma applySteps_parseSteps (f : Fragment) (r : RatingItem) :
    applySteps parseSteps f r =
      stepDate f (stepType f (stepDuration f (stepRating f
        (stepNameEng f (stepNameRusYear f (stepNum f r)))))) := rfl

lemma stepRating_formula (f : Fragment) (r : RatingItem) (hr : r.rating = "") :
    (stepRating f r).rating =
      match f.vote_widget with
      | none => strat3 f
      | some divs =>
        if strat1 divs = "" then
          (if strat2 f.scripts = "" then strat3 f else strat2 f.scripts)
        else strat1 divs := by
  unfold stepRating strat1 strat2 strat3
  cases hw : f.vote_widget with
  | none =>
    dsimp only
    rw [if_pos hr]
    cases f.rateNow_vote <;> simp [hr]
  | some divs =>
    dsimp only
    cases hd : divs.find? myVoteDiv with
    | some d =>
      dsimp only
      by_cases ht : pyStrip d.text = ""
      · rw [if_pos ht, if_pos ht]
        cases hs : f.scripts.findSome? scriptRating with
        | some v =>
          dsimp only
          by_cases hv : v = ""
          · rw [if_pos hv, if_pos hv]
            cases f.rateNow_vote <;> simp [hv]
          · rw [if_neg hv, if_neg hv]
        | none =>
          dsimp only
          rw [if_pos ht, if_pos rfl]
          cases f.rateNow_vote <;> simp [ht]
      · rw [if_neg ht, if_neg ht, if_neg ht]
    | none =>
      dsimp only
      rw [if_pos hr, if_pos rfl]
      cases hs : f.scripts.findSome? scriptRating with
      | some v =>
        dsimp only
        by_cases hv : v = ""
        · rw [if_pos hv, if_pos hv]
          cases f.rateNow_vote <;> simp [hv]
        · rw [if_neg hv, if_neg hv]
      | none =>
        dsimp only
        rw [if_pos hr]
        cases f.rateNow_vote <;> simp [hr]

/-- Modelled from the spec's words: the page count is `ceil(total / 50)`. -/
def specCeil (t : Nat) : Nat :=
  if t % 50 = 0 then t / 50 else t / 50 + 1

lemma code_ceil (t : Nat) : (t + 49) / 50 = specCeil t := by
  unfold specCeil
  rcases eq_or_ne (t % 50) 0 with h | h
  · rw [if_pos h]; omega
  · rw [if_neg h]; omega

/-- Claim C1 (amended): on the fetched first listing page, when the
`pagesFromTo` indicator yields a numeric total `t`, `get_total_pages`
returns `ceil(t/50)`; when it does not and the votes-total indicator
yields `t`, likewise `ceil(t/50)`; when neither indicator yields a
total, exactly 1.  In particular `ceil` gives 10 for 458 and 9 for 450
— and 0 for a found total of 0 (so a found 0 does NOT produce the
fallback of 1; the original claim's final clause fails, see the
counterexample). -/
theorem C1_page_count (d : Page1Doc) :
    (∀ t, d.pagesFromTo.bind searchIz = some t →
       get_total_pages (Fetch1.ok d) = specCeil t) ∧
    (d.pagesFromTo.bind searchIz = none →
       ∀ t, d.votesTotal.bind searchNum = some t →
         get_total_pages (Fetch1.ok d) = specCeil t) ∧
    (d.pagesFromTo.bind searchIz = none → d.votesTotal.bind searchNum = none →
       get_total_pages (Fetch1.ok d) = 1) ∧
    specCeil 458 = 10 ∧ specCeil 450 = 9 ∧ specCeil 0 = 0 := by
  refine ⟨?_, ?_, ?_, by decide, by decide, by decide⟩
  · intro t ht
    simp only [get_total_pages, ht]
    exact code_ceil t
  · intro h1 t ht
    simp only [get_total_pages, h1, ht]
    exact code_ceil t
  · intro h1 h2
    simp only [get_total_pages, h1, h2]

/-- Claim C1, counterexample to the clause "a total of 0 also yields
the fallback of 1": on a first page whose `pagesFromTo` indicator reads
a total of 0, `get_total_pages` returns `(0 + 49) // 50 = 0`, not 1. -/
theorem C1_counterexample :
    searchIz "1–0 из 0" = some 0 ∧
    get_total_pages (Fetch1.ok ⟨some "1–0 из 0", none⟩) = 0 ∧
    get_total_pages (Fetch1.ok ⟨some "1–0 из 0", none⟩) ≠ 1 :=
  ⟨by decide, by decide, by decide⟩

/-- Witness for C1: a first page showing `1–50 из 458` yields 10 pages. -/
theorem C1_witness :
    get_total_pages (Fetch1.ok ⟨some "1–50 из 458", none⟩) = 10 := by
  have h := (C1_page_count ⟨some "1–50 из 458", none⟩).1 458 (by decide)
  rw [h]
  decide

/-- Claim C2: a parsed record is kept by `extract_from_html` (and by
the page-loop accumulator of `export_to_csv`, which uses the same
filter) exactly when at least one of its two name fields is non-empty. -/
theorem C2_name_filter (frags : List Fragment) :
    extract_from_html frags = (frags.map parse_rating_item).filter hasName ∧
    (∀ r : RatingItem, r ∈ extract_from_html frags ↔
       (r ∈ frags.map parse_rating_item ∧ hasName r = true)) ∧
    (∀ r : RatingItem, hasName r = true ↔ (r.nameRus ≠ "" ∨ r.nameEng ≠ "")) ∧
    (∀ (env : ScrapeEnv) (n : Nat),
       (exportRun env n).1 = concatRecs env (List.range' 1 n)) ∧
    (∀ (env : ScrapeEnv) (p : Nat),
       pageRecs env p = ((fetch_ratings_page env p).map parse_rating_item).filter hasName) := by
  refine ⟨extract_eq_filter frags, ?_, ?_, ?_, fun env p => rfl⟩
  · intro r
    rw [extract_eq_filter]
    exact List.mem_filter
  · intro r
    unfold hasName
    constructor
    · intro hb
      by_contra hc
      push_neg at hc
      rw [hc.1, hc.2] at hb
      exact absurd hb (by decide)
    · intro ho
      cases hE : r.nameRus.isEmpty with
      | false => simp [hE]
      | true =>
        cases hF : r.nameEng.isEmpty with
        | false => simp [hF]
        | true =>
          rcases ho with h | h
          · exact absurd ((String.isEmpty_iff _).mp hE) h
          · exact absurd ((String.isEmpty_iff _).mp hF) h
  · intro env n
    rw [exportRun_eq]

/-- Witness for C2: of two parsed fragments, the one with a name is
kept and the nameless one dropped. -/
theorem C2_witness :
    extract_from_html
        [⟨none, some "Movie", none, none, [], none, none, none, none, none⟩,
         ⟨none, none, none, none, [], none, none, none, none, none⟩] =
      [parse_rating_item ⟨none, some "Movie", none, none, [], none, none, none, none, none⟩] := by
  rw [(C2_name_filter _).1]
  decide

/-- Claim C3: a raised network/HTTP error on the page-count fetch makes
`get_total_pages` return 0, upon which `export_to_csv` reports failure
with no page fetched and no output written; and 0 is distinct from the
indicator-absent fallback value 1. -/
theorem C3_fetch_error (env : ScrapeEnv) (h : env.page1 = Fetch1.err) :
    get_total_pages env.page1 = 0 ∧
    export_to_csv env = ⟨false, [], none⟩ ∧
    get_total_pages env.page1 ≠ get_total_pages (Fetch1.ok ⟨none, none⟩) := by
  rw [h]
  refine ⟨rfl, ?_, by decide⟩
  simp [export_to_csv, h, get_total_pages]

/-- A run whose page-count fetch raises. -/
def envErr : ScrapeEnv := ⟨Fetch1.err, fun _ => some [], true⟩

/-- Witness for C3. -/
theorem C3_witness :
    get_total_pages envErr.page1 = 0 ∧
    export_to_csv envErr = ⟨false, [], none⟩ ∧
    get_total_pages envErr.page1 ≠ get_total_pages (Fetch1.ok ⟨none, none⟩) :=
  C3_fetch_error envErr rfl

/-- Claim C7: a raised network/HTTP error on page `k`'s fetch makes
`fetch_ratings_page` return the empty list, so page `k` contributes no
records, while the page loop still visits every page `1..n` and
accumulates every page's contribution in order. -/
theorem C7_page_error (env : ScrapeEnv) (k : Nat) (h : env.pages k = none) :
    fetch_ratings_page env k = [] ∧
    pageRecs env k = [] ∧
    ∀ n, exportRun env n = (concatRecs env (List.range' 1 n), List.range' 1 n) := by
  have hf : fetch_ratings_page env k = [] := by
    simp [fetch_ratings_page, h]
  refine ⟨hf, ?_, fun n => exportRun_eq env n⟩
  simp [pageRecs, hf]

/-- A run whose page-1 fetch raises while page 2 returns one named
fragment. -/
def envSkip : ScrapeEnv :=
  ⟨Fetch1.ok ⟨none, none⟩,
   fun p => if p = 1 then none
            else some [⟨none, some "Movie", none, none, [], none, none, none, none, none⟩],
   true⟩

/-- Witness for C7. -/
theorem C7_witness :
    fetch_ratings_page envSkip 1 = [] ∧
    pageRecs envSkip 1 = [] ∧
    exportRun envSkip 2 = (concatRecs envSkip (List.range' 1 2), List.range' 1 2) := by
  have h := C7_page_error envSkip 1 rfl
  exact ⟨h.1, h.2.1, h.2.2 2⟩

/-- A quoted digit seven, `'7'`, as it appears in a script payload. -/
def quoted7 : String := String.mk [quoteChar, '7', quoteChar]

/-- Modelled from claim C4's words: the three rating strategies tried
in fixed order over the fragment — (1) the nested vote-display element,
(2) a script payload matching `rating: '<digits>'` anywhere in the
fragment, (3) the `vote` attribute — the first successful (non-empty)
strategy winning, the empty string when all fail. -/
def claimedRating (f : Fragment) : String :=
  let s1 :=
    match f.vote_widget with
    | none => ""
    | some divs => strat1 divs
  if s1 = "" then
    (if strat2 f.scripts = "" then strat3 f else strat2 f.scripts)
  else s1

/-- Claim C4 (amended): the rating is computed by the three strategies
in fixed order with the first success winning and `""` when all fail —
except that strategies 1 and 2 are only attempted inside the
vote-widget branch: with no vote-widget container the code goes
straight to strategy 3 (see the counterexample for the unamended
claim). -/
theorem C4_rating_order (f : Fragment) (h : f.failAt = none) :
    (parse_rating_item f).rating =
      match f.vote_widget with
      | none => strat3 f
      | some divs =>
        if strat1 divs = "" then
          (if strat2 f.scripts = "" then strat3 f else strat2 f.scripts)
        else strat1 divs := by
  rw [parse_eq_fold h, applySteps_parseSteps, stepDate_rating, stepType_rating,
      stepDuration_rating, stepRating_formula]
  simp [initItem]

/-- A fragment with no vote widget, no vote attribute, and a script
payload carrying `rating: '7'`. -/
def scriptOnlyFrag : Fragment :=
  ⟨none, none, none, none,
   [⟨some ("ur_data.push(film: 935940, rating: " ++ quoted7 ++ ")")⟩],
   none, none, none, none, none⟩

/-- Claim C4, counterexample to the unamended claim: on a fragment with
no vote-widget container, strategy 2 as the claim words it succeeds
with "7", yet the code leaves the rating empty, because the script scan
is nested inside the vote-widget branch and is never attempted. -/
theorem C4_counterexample :
    claimedRating scriptOnlyFrag = "7" ∧
    (parse_rating_item scriptOnlyFrag).rating = "" ∧
    claimedRating scriptOnlyFrag ≠ (parse_rating_item scriptOnlyFrag).rating :=
  ⟨by decide, by decide, by decide⟩

/-- A fragment carrying all three rating signals at once: a nested
vote-display div showing 8, a script payload with `rating: '7'`, and a
`vote` attribute of 6. -/
def threeSignalFrag : Fragment :=
  ⟨none, none, none,
   some [⟨some ["myVote", "show_vote_8"], "8"⟩],
   [⟨some ("rating: " ++ quoted7)⟩],
   some "6", none, none, none, none⟩

/-- Witness for C4: with all three signals present, strategy 1 wins. -/
theorem C4_witness :
    (parse_rating_item threeSignalFrag).rating = "8" := by
  have h := C4_rating_order threeSignalFrag rfl
  rw [h]
  decide

/-- Claim C9: with no vote-widget container the script-payload strategy
is never consulted — the rating equals strategy 3's result whatever the
fragment's scripts hold, hence equals the rating of the same fragment
with its scripts removed. -/
theorem C9_no_widget (f : Fragment) (h : f.failAt = none)
    (hw : f.vote_widget = none) :
    (parse_rating_item f).rating = strat3 f ∧
    (parse_rating_item f).rating =
      (parse_rating_item { f with scripts := [] }).rating := by
  have key : ∀ g : Fragment, g.failAt = none → g.vote_widget = none →
      (parse_rating_item g).rating = strat3 g := by
    intro g hg hgw
    rw [parse_eq_fold hg, applySteps_parseSteps, stepDate_rating, stepType_rating,
        stepDuration_rating, stepRating_formula]
    · rw [hgw]
    · simp [initItem]
  have h1 := key f h hw
  have h2 := key { f with scripts := [] } h hw
  refine ⟨h1, ?_⟩
  rw [h1, h2]
  rfl

/-- A fragment with no vote widget, a script payload with
`rating: '7'`, and a `vote` attribute of 5. -/
def noWidgetFrag : Fragment :=
  ⟨none, none, none, none, [⟨some ("rating: " ++ quoted7)⟩],
   some "5", none, none, none, none⟩

/-- Witness for C9: the script's 7 is ignored, the attribute's 5 wins. -/
theorem C9_witness :
    (parse_rating_item noWidgetFrag).rating = "5" := by
  have h := (C9_no_widget noWidgetFrag rfl rfl).1
  rw [h]
  decide

/-- Claim C8: `parse_rating_item` never propagates an exception: with
no exception it returns the full fold of the seven extraction steps,
and when the exception oracle fires on entry to step `k` it still
returns a record — the partial fold of the first `k` steps, with the
defaults everywhere beyond. -/
theorem C8_no_propagation (f : Fragment) :
    (f.failAt = none → parse_rating_item f = applySteps parseSteps f initItem) ∧
    (∀ k, f.failAt = some k →
       parse_rating_item f = applySteps (parseSteps.take k) f initItem) :=
  ⟨fun h => parse_eq_fold h, fun _ hk => parse_eq_take hk⟩

/-- A fragment whose processing raises on entry to step 2. -/
def failFrag : Fragment :=
  ⟨some "3", some "Movie (1999)", none, none, [], none, none, none, none, some 2⟩

/-- Witness for C8. -/
theorem C8_witness :
    parse_rating_item failFrag = applySteps (parseSteps.take 2) failFrag initItem :=
  (C8_no_propagation failFrag).2 2 rfl

/-- Claim C10: the returned record always carries exactly the eight
keys in source order, each bound to a string (enforced by the
`RatingItem` structure), and when the exception oracle fires at step
`k` every field belonging to a step not yet reached still holds the
empty-string default. -/
theorem C10_record_shape (f : Fragment) :
    (recFields (parse_rating_item f)).map Prod.fst =
      ["num", "nameRus", "nameEng", "rating", "year", "type", "duration", "date_rated"] ∧
    (∀ k, f.failAt = some k →
      ((k ≤ 0 → (parse_rating_item f).num = "") ∧
       (k ≤ 1 → (parse_rating_item f).nameRus = "" ∧ (parse_rating_item f).year = "") ∧
       (k ≤ 2 → (parse_rating_item f).nameEng = "") ∧
       (k ≤ 3 → (parse_rating_item f).rating = "") ∧
       (k ≤ 4 → (parse_rating_item f).duration = "") ∧
       (k ≤ 5 → (parse_rating_item f).type = "") ∧
       (k ≤ 6 → (parse_rating_item f).date_rated = ""))) := by
  constructor
  · rfl
  · intro k hk
    rw [parse_eq_take hk]
    refine ⟨fun hki => ?_, fun hki => ?_, fun hki => ?_, fun hki => ?_,
            fun hki => ?_, fun hki => ?_, fun hki => ?_⟩ <;>
      (interval_cases k <;> simp [parseSteps, applySteps, initItem])

/-- A fragment whose processing raises on entry to step 3 (the rating
step), after a number and a name were already extracted. -/
def failFrag3 : Fragment :=
  ⟨some "4", some "Film", none, some [⟨some ["myVote", "show_vote_9"], "9"⟩],
   [], none, none, none, none, some 3⟩

/-- Witness for C10. -/
theorem C10_witness :
    (recFields (parse_rating_item failFrag3)).map Prod.fst =
      ["num", "nameRus", "nameEng", "rating", "year", "type", "duration", "date_rated"] ∧
    (parse_rating_item failFrag3).rating = "" :=
  ⟨(C10_record_shape failFrag3).1,
   ((C10_record_shape failFrag3).2 3 rfl).2.2.2.1 (by omega)⟩

lemma matchNameYear_pos (pre ws : List Char) (a b c d : Char)
    (hws : ∀ x ∈ ws, isPySpace x = true)
    (ha : a.isDigit = true) (hb : b.isDigit = true)
    (hc : c.isDigit = true) (hd : d.isDigit = true)
    (hn : '\n' ∉ pre) :
    matchNameYear (pre ++ ws ++ '(' :: a :: b :: c :: d :: [')']) =
      some ((pre.reverse.dropWhile isPySpace).reverse, [a, b, c, d]) := by
  unfold matchNameYear
  have hrev : (pre ++ ws ++ '(' :: a :: b :: c :: d :: [')']).reverse =
      ')' :: d :: c :: b :: a :: '(' :: (ws.reverse ++ pre.reverse) := by
    simp [List.reverse_append]
  rw [hrev]
  dsimp only
  have hdw : (ws.reverse ++ pre.reverse).dropWhile isPySpace =
      pre.reverse.dropWhile isPySpace :=
    dropWhile_append_all _ _ (fun x hx => hws x (List.mem_reverse.mp hx))
  rw [if_pos (by simp [ha, hb, hc, hd])]
  rw [hdw]
  rw [if_neg ?_]
  intro hx
  apply hn
  exact List.mem_reverse.mp (mem_of_mem_dropWhile (List.mem_reverse.mp hx))

/-- Claim C5 (amended): on the stripped local-title text, when the text
decomposes as a name part (containing no newline — the pattern's `.`
does not cross newlines), optional whitespace, and a trailing
parenthesized 4-digit year, the year field is that 4-digit string and
the name field is the name part stripped; when the pattern does not
match, the year stays empty and the name field is the whole stripped
text. -/
theorem C5_name_year (f : Fragment) (t : String) (h0 : f.failAt = none)
    (h1 : f.nameRus_link = some t) :
    (∀ (pre ws : List Char) (a b c d : Char),
       (pyStrip t).data = pre ++ ws ++ '(' :: a :: b :: c :: d :: [')'] →
       (∀ x ∈ ws, isPySpace x = true) →
       a.isDigit = true → b.isDigit = true → c.isDigit = true → d.isDigit = true →
       '\n' ∉ pre →
       (parse_rating_item f).year = String.mk [a, b, c, d] ∧
       (parse_rating_item f).nameRus = String.mk (pyStripL pre)) ∧
    (matchNameYear (pyStrip t).data = none →
       (parse_rating_item f).year = "" ∧
       (parse_rating_item f).nameRus = pyStrip t) := by
  have hyear : (parse_rating_item f).year =
      (stepNameRusYear f (stepNum f initItem)).year := by
    rw [parse_eq_fold h0, applySteps_parseSteps]
    simp
  have hname : (parse_rating_item f).nameRus =
      (stepNameRusYear f (stepNum f initItem)).nameRus := by
    rw [parse_eq_fold h0, applySteps_parseSteps]
    simp
  constructor
  · intro pre ws a b c d hdec hws ha hb hc hd hn
    have hm := matchNameYear_pos pre ws a b c d hws ha hb hc hd hn
    rw [← hdec] at hm
    constructor
    · rw [hyear]
      unfold stepNameRusYear
      rw [h1]
      dsimp only
      rw [hm]
    · rw [hname]
      unfold stepNameRusYear
      rw [h1]
      dsimp only
      rw [hm]
      dsimp only
      rw [pyStripL_dropTrail]
  · intro hnone
    constructor
    · rw [hyear]
      unfold stepNameRusYear
      rw [h1]
      dsimp only
      rw [hnone]
      dsimp only
      simp [initItem]
    · rw [hname]
      unfold stepNameRusYear
      rw [h1]
      dsimp only
      rw [hnone]

/-- A fragment whose local-title link reads `Movie (1999)`. -/
def movieFrag : Fragment :=
  ⟨none, some "Movie (1999)", none, none, [], none, none, none, none, none⟩

/-- Witness for C5. -/
theorem C5_witness :
    (parse_rating_item movieFrag).year = "1999" ∧
    (parse_rating_item movieFrag).nameRus = "Movie" := by
  have h := (C5_name_year movieFrag "Movie (1999)" rfl rfl).1
      "Movie".data [' '] '1' '9' '9' '9' (by decide) (by decide) (by decide)
      (by decide) (by decide) (by decide) (by decide)
  exact ⟨h.1.trans (by decide), h.2.trans (by decide)⟩

/-- A fragment whose local-title link text contains a newline and ends
in " (1999)". -/
def newlineFrag : Fragment :=
  ⟨none, some "a\nb (1999)", none, none, [], none, none, none, none, none⟩

/-- Claim C5, counterexample to the unamended claim: the text
`"a\nb (1999)"` does end in the trailing parenthesized 4-digit year
`" (1999)"` (witnessed by the explicit decomposition below), so the
claim demands `year = "1999"` and the name with the suffix stripped —
but the pattern's `.` cannot cross the newline, `re.match` fails, and
the code leaves the year empty with the full text as the name. -/
theorem C5_counterexample :
    ("a\nb (1999)" : String).data =
      ['a', '\n', 'b'] ++ [' '] ++ '(' :: '1' :: '9' :: '9' :: '9' :: [')'] ∧
    (∀ x ∈ [' '], isPySpace x = true) ∧
    ('1' : Char).isDigit = true ∧ ('9' : Char).isDigit = true ∧
    (parse_rating_item newlineFrag).year = "" ∧
    (parse_rating_item newlineFrag).nameRus = "a\nb (1999)" := by
  decide

/-- Claim C6: on the stripped date text, a successful
`strptime(_, "%d.%m.%Y, %H:%M")` parse makes the rated-on field the
`%Y-%m-%d` reformat, and a failed parse leaves the raw string in the
field verbatim — the field is never dropped and nothing is raised. -/
theorem C6_date (f : Fragment) (t : String) (h0 : f.failAt = none)
    (h1 : f.date_div = some t) :
    (∀ p : DateParts, pyStrptimeDMYHM (pyStrip t) = some p →
       (parse_rating_item f).date_rated = fmtYMD p) ∧
    (pyStrptimeDMYHM (pyStrip t) = none →
       (parse_rating_item f).date_rated = pyStrip t) := by
  rw [parse_eq_fold h0, applySteps_parseSteps]
  constructor
  · intro p hp
    unfold stepDate
    rw [h1]
    dsimp only
    rw [hp]
  · intro hp
    unfold stepDate
    rw [h1]
    dsimp only
    rw [hp]

/-- A fragment whose date element reads `15.03.2021, 14:30`. -/
def dateFrag : Fragment :=
  ⟨none, some "Taxi", none, none, [], none, none, none, some "15.03.2021, 14:30", none⟩

/-- Witness for C6. -/
theorem C6_witness :
    (parse_rating_item dateFrag).date_rated = "2021-03-15" := by
  have h := (C6_date dateFrag "15.03.2021, 14:30" rfl rfl).1 ⟨15, 3, 2021, 14, 30⟩ (by decide)
  rw [h]
  decide
